import Mathlib

/-
Verification of the inzunet virtual network device driver
(src/Linux-Kernel/basic-network-device/inzunet.c).

The driver is embedded shallowly: the two atomic 64-bit counters are
natural numbers reduced modulo 2 ^ 64 at every update (the wraparound
semantics of atomic64_t); the net_device structure is a record holding
the fields the driver touches; the module-level pointers inzunet_dev and
inzunet_proc_entry become an explicit ModuleState record, where an
Option NetDevice is the live allocation owned through the pointer (none
once the allocation is freed or was never made); kernel calls that the
driver issues (alloc_netdev, register_netdev, proc_create, free_netdev,
unregister_netdev, remove_proc_entry, printk) are recorded as an event
trace so that resource accounting and release ordering can be stated.
-/

namespace Inzunet

/-- Modulus of the 64-bit counters (atomic64_t wraps at 2 ^ 64). -/
def U64 : Nat := 2 ^ 64

/-- struct inzunet_priv: the private area of the net_device, holding the
two atomic 64-bit transmit counters.  Values are kept reduced modulo
U64 by every update. -/
structure InzunetPriv where
  tx_packets : Nat
  tx_bytes : Nat
deriving DecidableEq

/-- The fields of struct sk_buff that inzunet_start_xmit reads: len is
the u32 byte length of the packet, protocol the u16 protocol tag (read
only for the diagnostic printk). -/
structure Skb where
  len : Nat
  protocol : Nat
deriving DecidableEq

/-- Return values of an ndo_start_xmit handler. -/
inductive NetdevTx where
  | NETDEV_TX_OK
  | NETDEV_TX_BUSY
deriving DecidableEq

/-- The fields of struct net_device that the driver touches: the name
assigned by the host, the transmit-queue admission state driven by
netif_start_queue / netif_stop_queue, the IFF_NOARP flag, the queue
length set in inzunet_setup, and the private counter area. -/
structure NetDevice where
  name : String
  queueStopped : Bool
  noArp : Bool
  tx_queue_len : Nat
  priv : InzunetPriv
deriving DecidableEq

/-- netif_start_queue: marks the transmit queue as admitting requests. -/
def netif_start_queue (dev : NetDevice) : NetDevice :=
  { dev with queueStopped := false }

/-- netif_stop_queue: marks the transmit queue as non-admitting. -/
def netif_stop_queue (dev : NetDevice) : NetDevice :=
  { dev with queueStopped := true }

/-- inzunet_open: starts the transmit queue, logs, and returns 0. -/
def inzunet_open (dev : NetDevice) : NetDevice × Int :=
  (netif_start_queue dev, 0)

/-- inzunet_stop: stops the transmit queue, logs, and returns 0. -/
def inzunet_stop (dev : NetDevice) : NetDevice × Int :=
  (netif_stop_queue dev, 0)

/-- Result of one inzunet_start_xmit call: the device after the counter
updates, the number of dev_kfree_skb calls issued on the packet handle,
and the value returned to the core kernel. -/
structure XmitResult where
  dev : NetDevice
  freedSkbs : Nat
  ret : NetdevTx
deriving DecidableEq

/-- inzunet_start_xmit: unconditionally increments tx_packets, adds
skb.len to tx_bytes (both atomic64, hence modulo 2 ^ 64), emits a
diagnostic printk (no state effect), frees the skb exactly once, and
returns NETDEV_TX_OK.  The source performs no check of the device
state before updating the counters. -/
def inzunet_start_xmit (skb : Skb) (dev : NetDevice) : XmitResult :=
  { dev := { dev with priv :=
      { tx_packets := (dev.priv.tx_packets + 1) % U64
        tx_bytes := (dev.priv.tx_bytes + skb.len) % U64 } }
    freedSkbs := 1
    ret := NetdevTx.NETDEV_TX_OK }

/-- inzunet_setup: applied by alloc_netdev to the fresh device; sets
ethernet defaults, installs the ops table, disables ARP, and sets the
transmit queue length to 1000. -/
def inzunet_setup (dev : NetDevice) : NetDevice :=
  { dev with noArp := true, tx_queue_len := 1000 }

/-- alloc_netdev with the inzunet setup callback: a fresh device with a
host-assigned name, zeroed private area, and the queue not yet started. -/
def alloc_netdev (name : String) : NetDevice :=
  inzunet_setup
    { name := name
      queueStopped := true
      noArp := false
      tx_queue_len := 0
      priv := { tx_packets := 0, tx_bytes := 0 } }

/-- The device as it exists right after a successful inzunet_init: the
allocated, set-up device with both counters set to zero. -/
def initialDevice : NetDevice :=
  { alloc_netdev "inzunet0" with priv := { tx_packets := 0, tx_bytes := 0 } }

/-- The device after the host subsystem brings the interface up:
Registered-Running state. -/
def runningDevice : NetDevice :=
  (inzunet_open initialDevice).1

/-- Rendering of a u64 counter value by seq_printf with format %lld
after a cast to long long: values below 2 ^ 63 print as themselves,
values at or above 2 ^ 63 print as the negative two-complement value. -/
def sprintf_lld (v : Nat) : String :=
  if v % U64 < 2 ^ 63 then toString (v % U64) else "-" ++ toString (U64 - v % U64)

/-- inzunet_proc_show: if the device pointer is absent, print the
all-zero status text and return 0; otherwise print the two counters via
%lld and return 0.  The first component is the text written to the
seq_file, the second the return value. -/
def inzunet_proc_show (inzunet_dev : Option NetDevice) : String × Int :=
  match inzunet_dev with
  | none => ("tx_packets=0\ntx_bytes=0\n", 0)
  | some dev =>
      ("tx_packets=" ++ sprintf_lld dev.priv.tx_packets ++
       "\ntx_bytes=" ++ sprintf_lld dev.priv.tx_bytes ++ "\n", 0)

/-- The status text as the specification describes it: both counters
rendered as unsigned decimal, each line ended by a single newline.
This definition follows the words of the specification (section 6) and
is compared against the rendering the code performs. -/
def specStatusText (p b : Nat) : String :=
  "tx_packets=" ++ toString p ++ "\ntx_bytes=" ++ toString b ++ "\n"

/-- A device identical to initialDevice except for its counter values;
used to state properties of the status rendering over all snapshots. -/
def devWith (p b : Nat) : NetDevice :=
  { initialDevice with priv := { tx_packets := p, tx_bytes := b } }

/-- Kernel calls issued by inzunet_init and inzunet_exit, recorded in
order as an event trace. -/
inductive Event where
  | alloc_ok
  | alloc_fail
  | free_netdev
  | register_ok
  | register_fail
  | unregister_netdev
  | proc_create_ok
  | proc_create_fail
  | remove_proc_entry
  | log_info
  | log_warn
  | log_err
deriving DecidableEq

/-- The module-level mutable state: inzunet_dev (the live allocation
owned through the global pointer, none when the pointer is NULL or the
allocation has been freed) and whether /proc/inzunet_stats exists. -/
structure ModuleState where
  inzunet_dev : Option NetDevice
  inzunet_proc_entry : Bool
deriving DecidableEq

/-- Outcomes of the three fallible kernel services inzunet_init calls:
whether alloc_netdev returns a device, the error code register_netdev
returns (0 on success), and whether proc_create returns an entry. -/
structure HostEnv where
  allocOk : Bool
  regErr : Int
  procOk : Bool

/-- Net live allocations recorded in a trace: successful alloc_netdev
calls minus free_netdev calls. -/
def liveDevices (evs : List Event) : Nat :=
  evs.count Event.alloc_ok - evs.count Event.free_netdev

/-- Net registered devices recorded in a trace: successful
register_netdev calls minus unregister_netdev calls. -/
def registeredDevices (evs : List Event) : Nat :=
  evs.count Event.register_ok - evs.count Event.unregister_netdev

/-- inzunet_init: allocates the device (returning -ENOMEM = -12 when
allocation fails), zeroes the counters, registers the device (freeing
the allocation and returning the error when registration fails), then
creates /proc/inzunet_stats, continuing with only a warning when that
fails.  Returns the value given to the module loader, the resulting
module state, and the trace of kernel calls. -/
def inzunet_init (env : HostEnv) : Int × ModuleState × List Event :=
  if env.allocOk = false then
    (-12, { inzunet_dev := none, inzunet_proc_entry := false },
     [Event.alloc_fail])
  else
    let dev := { alloc_netdev "inzunet0" with
                   priv := { tx_packets := 0, tx_bytes := 0 } }
    if env.regErr ≠ 0 then
      (env.regErr, { inzunet_dev := none, inzunet_proc_entry := false },
       [Event.alloc_ok, Event.register_fail, Event.log_err, Event.free_netdev])
    else
      if env.procOk then
        (0, { inzunet_dev := some dev, inzunet_proc_entry := true },
         [Event.alloc_ok, Event.register_ok, Event.proc_create_ok,
          Event.log_info])
      else
        (0, { inzunet_dev := some dev, inzunet_proc_entry := false },
         [Event.alloc_ok, Event.register_ok, Event.proc_create_fail,
          Event.log_warn, Event.log_info])

/-- inzunet_exit: removes the /proc entry when it was created, then,
when the device pointer is live, unregisters and frees the device and
logs.  Returns the final module state and the trace of kernel calls. -/
def inzunet_exit (st : ModuleState) : ModuleState × List Event :=
  let step1 :=
    if st.inzunet_proc_entry then
      ({ st with inzunet_proc_entry := false }, [Event.remove_proc_entry])
    else (st, ([] : List Event))
  match step1.1.inzunet_dev with
  | some _ =>
      ({ step1.1 with inzunet_dev := none },
       step1.2 ++ [Event.unregister_netdev, Event.free_netdev, Event.log_info])
  | none => (step1.1, step1.2)

/-- The release calls of the teardown path, in the order the
specification requires them. -/
def isRelease (e : Event) : Bool :=
  match e with
  | Event.remove_proc_entry => true
  | Event.unregister_netdev => true
  | Event.free_netdev => true
  | _ => false

/-- Sequential execution of the transmit handler over a list of packet
handles, threading the device through. -/
def runXmits (skbs : List Skb) (dev : NetDevice) : NetDevice :=
  skbs.foldl (fun d skb => (inzunet_start_xmit skb d).dev) dev

/-- The operations of the core, as invoked by the host subsystem. -/
inductive Op where
  | xmitOp (skb : Skb)
  | openOp
  | stopOp
  | readOp
deriving DecidableEq

/-- Effect of one core operation on the device.  A status read does not
modify the device. -/
def applyOp (op : Op) (dev : NetDevice) : NetDevice :=
  match op with
  | Op.xmitOp skb => (inzunet_start_xmit skb dev).dev
  | Op.openOp => (inzunet_open dev).1
  | Op.stopOp => (inzunet_stop dev).1
  | Op.readOp => dev

/-- Absence of 64-bit wraparound in one operation applied to a device:
for a transmit, both updated counters stay below 2 ^ 64; the other
operations never wrap. -/
def NoWrap (dev : NetDevice) : Op → Prop
  | Op.xmitOp skb =>
      dev.priv.tx_packets + 1 < U64 ∧ dev.priv.tx_bytes + skb.len < U64
  | _ => True

/-! Helper lemmas about the transmit fold. -/

lemma runXmits_cons (s : Skb) (l : List Skb) (d : NetDevice) :
    runXmits (s :: l) d = runXmits l ((inzunet_start_xmit s d).dev) := rfl

lemma runXmits_tx_packets (skbs : List Skb) :
    ∀ d : NetDevice, d.priv.tx_packets < U64 →
      (runXmits skbs d).priv.tx_packets = (d.priv.tx_packets + skbs.length) % U64 := by
  induction skbs with
  | nil =>
      intro d h
      simp [runXmits, Nat.mod_eq_of_lt h]
  | cons s l ih =>
      intro d _
      have hstep : ((inzunet_start_xmit s d).dev).priv.tx_packets
          = (d.priv.tx_packets + 1) % U64 := rfl
      have hlt : ((inzunet_start_xmit s d).dev).priv.tx_packets < U64 := by
        rw [hstep]; exact Nat.mod_lt _ (by decide)
      rw [runXmits_cons, ih _ hlt, hstep, Nat.mod_add_mod, List.length_cons]
      have harith : d.priv.tx_packets + 1 + l.length
          = d.priv.tx_packets + (l.length + 1) := by omega
      rw [harith]

lemma runXmits_tx_bytes (skbs : List Skb) :
    ∀ d : NetDevice, d.priv.tx_bytes < U64 →
      (runXmits skbs d).priv.tx_bytes
        = (d.priv.tx_bytes + (skbs.map Skb.len).sum) % U64 := by
  induction skbs with
  | nil =>
      intro d h
      simp [runXmits, Nat.mod_eq_of_lt h]
  | cons s l ih =>
      intro d _
      have hstep : ((inzunet_start_xmit s d).dev).priv.tx_bytes
          = (d.priv.tx_bytes + s.len) % U64 := rfl
      have hlt : ((inzunet_start_xmit s d).dev).priv.tx_bytes < U64 := by
        rw [hstep]; exact Nat.mod_lt _ (by decide)
      rw [runXmits_cons, ih _ hlt, hstep, Nat.mod_add_mod, List.map_cons,
        List.sum_cons]
      have harith : d.priv.tx_bytes + s.len + (l.map Skb.len).sum
          = d.priv.tx_bytes + (s.len + (l.map Skb.len).sum) := by omega
      rw [harith]

lemma xmit_packets_step (skb : Skb) (d : NetDevice) :
    (applyOp (Op.xmitOp skb) d).priv.tx_packets
      = (d.priv.tx_packets + 1) % U64 := rfl

lemma sprintf_lld_of_lt {v : Nat} (h : v < 2 ^ 63) : sprintf_lld v = toString v := by
  have h64 : v < U64 := lt_of_lt_of_le h (by decide)
  unfold sprintf_lld
  rw [Nat.mod_eq_of_lt h64, if_pos h]


/-! Theorems for the claims. -/

/-- Claim C1 (amended): for every sequence of transmit calls with packet byte
lengths l_1..l_N delivered in any order to the running device, provided
N and the total byte count stay below 2 ^ 64 (no 64-bit wraparound),
after all calls complete the counters hold packet_count = N and
byte_count = sum of the l_i. -/
theorem xmit_sequence_totals (skbs skbs' : List Skb) (hperm : skbs.Perm skbs')
    (hN : skbs.length < U64) (hB : (skbs.map Skb.len).sum < U64) :
    (runXmits skbs' runningDevice).priv.tx_packets = skbs.length ∧
    (runXmits skbs' runningDevice).priv.tx_bytes = (skbs.map Skb.len).sum := by
  have hp0 : runningDevice.priv.tx_packets = 0 := rfl
  have hb0 : runningDevice.priv.tx_bytes = 0 := rfl
  have hlen : skbs'.length = skbs.length := hperm.length_eq.symm
  have hsum : (skbs'.map Skb.len).sum = (skbs.map Skb.len).sum :=
    ((hperm.map Skb.len).sum_eq).symm
  constructor
  · rw [runXmits_tx_packets skbs' runningDevice (by decide), hp0, Nat.zero_add,
      hlen, Nat.mod_eq_of_lt hN]
  · rw [runXmits_tx_bytes skbs' runningDevice (by decide), hb0, Nat.zero_add,
      hsum, Nat.mod_eq_of_lt hB]

/-- Witness for C1: three packets of lengths 64, 128, 256 yield the
snapshot (3, 448). -/
theorem xmit_sequence_totals_witness :
    (runXmits [Skb.mk 64 0, Skb.mk 128 0, Skb.mk 256 0] runningDevice).priv.tx_packets = 3 ∧
    (runXmits [Skb.mk 64 0, Skb.mk 128 0, Skb.mk 256 0] runningDevice).priv.tx_bytes = 448 := by
  have h := xmit_sequence_totals [Skb.mk 64 0, Skb.mk 128 0, Skb.mk 256 0]
    [Skb.mk 64 0, Skb.mk 128 0, Skb.mk 256 0] (List.Perm.refl _)
    (by decide) (by decide)
  simpa using h

/-- Counterexample for C1 as stated: after 2 ^ 64 transmit calls of
zero-length packets the packet counter has wrapped to 0 and does not
equal the number of calls. -/
theorem xmit_sequence_totals_counterexample :
    (runXmits (List.replicate (2 ^ 64) (Skb.mk 0 0)) runningDevice).priv.tx_packets
      ≠ (List.replicate (2 ^ 64) (Skb.mk 0 0)).length := by
  have h := runXmits_tx_packets (List.replicate (2 ^ 64) (Skb.mk 0 0))
    runningDevice (by decide)
  have hp0 : runningDevice.priv.tx_packets = 0 := rfl
  rw [hp0, List.length_replicate] at h
  rw [h, List.length_replicate]
  decide

/-- Claim C2 (code bug): a transmit call issued while the device is in the
Registered-Stopped state (queue stopped, as right after startup) still
frees the packet handle exactly once and reports success, but the code
also updates both counters: the state precondition is never checked, so
counters (0, 0) become (1, 64) for a 64-byte packet. -/
theorem xmit_while_stopped_updates_counters :
    initialDevice.queueStopped = true ∧
    (inzunet_start_xmit (Skb.mk 64 2048) initialDevice).freedSkbs = 1 ∧
    (inzunet_start_xmit (Skb.mk 64 2048) initialDevice).ret = NetdevTx.NETDEV_TX_OK ∧
    (inzunet_start_xmit (Skb.mk 64 2048) initialDevice).dev.priv.tx_packets = 1 ∧
    (inzunet_start_xmit (Skb.mk 64 2048) initialDevice).dev.priv.tx_bytes = 64 := by
  decide

/-- Claim C3 (amended): for counter values below 2 ^ 63 the status read
renders exactly the two lines tx_packets=<p> and tx_bytes=<b>, each
ended by a single newline, in unsigned decimal with no leading zeros
and no extra whitespace; values at or above 2 ^ 63 are rendered as
negative numbers by the %lld conversion. -/
theorem proc_show_matches_spec (p b : Nat) (hp : p < 2 ^ 63) (hb : b < 2 ^ 63) :
    (inzunet_proc_show (some (devWith p b))).1 = specStatusText p b := by
  show "tx_packets=" ++ sprintf_lld p ++ "\ntx_bytes=" ++ sprintf_lld b ++ "\n" = _
  rw [sprintf_lld_of_lt hp, sprintf_lld_of_lt hb]
  rfl

/-- Witness for C3: the snapshot (3, 448) renders as the exact
specified text. -/
theorem proc_show_matches_spec_witness :
    (inzunet_proc_show (some (devWith 3 448))).1 = specStatusText 3 448 :=
  proc_show_matches_spec 3 448 (by decide) (by decide)

/-- Counterexample for C3 as stated: at packet_count = 2 ^ 63 the code
prints the value as a negative signed 64-bit number, not as unsigned
decimal. -/
theorem proc_show_spec_counterexample :
    (inzunet_proc_show (some (devWith (2 ^ 63) 0))).1 ≠ specStatusText (2 ^ 63) 0 := by
  decide

/-- Claim C4: when allocation succeeds and registration fails, startup
returns the registration error, the allocated device is freed before
returning (zero live allocations, zero registered devices), the module
state holds no device, and no status entry is created (proc_create is
never called). -/
theorem init_register_failure_rollback (env : HostEnv)
    (h1 : env.allocOk = true) (h2 : env.regErr ≠ 0) :
    (inzunet_init env).1 = env.regErr ∧
    liveDevices (inzunet_init env).2.2 = 0 ∧
    registeredDevices (inzunet_init env).2.2 = 0 ∧
    (inzunet_init env).2.1.inzunet_dev = none ∧
    (inzunet_init env).2.1.inzunet_proc_entry = false ∧
    Event.proc_create_ok ∉ (inzunet_init env).2.2 ∧
    Event.proc_create_fail ∉ (inzunet_init env).2.2 ∧
    Event.free_netdev ∈ (inzunet_init env).2.2 := by
  have key : inzunet_init env
      = (env.regErr, { inzunet_dev := none, inzunet_proc_entry := false },
         [Event.alloc_ok, Event.register_fail, Event.log_err,
          Event.free_netdev]) := by
    simp [inzunet_init, h1, h2]
  rw [key]
  exact ⟨rfl,
    (by decide : liveDevices [Event.alloc_ok, Event.register_fail,
        Event.log_err, Event.free_netdev] = 0),
    (by decide : registeredDevices [Event.alloc_ok, Event.register_fail,
        Event.log_err, Event.free_netdev] = 0),
    rfl, rfl,
    (by decide : Event.proc_create_ok ∉ [Event.alloc_ok, Event.register_fail,
        Event.log_err, Event.free_netdev]),
    (by decide : Event.proc_create_fail ∉ [Event.alloc_ok, Event.register_fail,
        Event.log_err, Event.free_netdev]),
    (by decide : Event.free_netdev ∈ [Event.alloc_ok, Event.register_fail,
        Event.log_err, Event.free_netdev])⟩

/-- Witness for C4: registration failing with -19 (-ENODEV). -/
theorem init_register_failure_rollback_witness :
    (inzunet_init { allocOk := true, regErr := -19, procOk := true }).1 = -19 ∧
    liveDevices (inzunet_init { allocOk := true, regErr := -19, procOk := true }).2.2 = 0 ∧
    registeredDevices (inzunet_init { allocOk := true, regErr := -19, procOk := true }).2.2 = 0 ∧
    (inzunet_init { allocOk := true, regErr := -19, procOk := true }).2.1.inzunet_dev = none ∧
    (inzunet_init { allocOk := true, regErr := -19, procOk := true }).2.1.inzunet_proc_entry = false ∧
    Event.proc_create_ok ∉ (inzunet_init { allocOk := true, regErr := -19, procOk := true }).2.2 ∧
    Event.proc_create_fail ∉ (inzunet_init { allocOk := true, regErr := -19, procOk := true }).2.2 ∧
    Event.free_netdev ∈ (inzunet_init { allocOk := true, regErr := -19, procOk := true }).2.2 :=
  init_register_failure_rollback { allocOk := true, regErr := -19, procOk := true }
    rfl (by decide)

/-- Claim C5: on every shutdown path the release calls occur in strict
reverse order of acquisition (status entry, then unregister, then
free), the status entry is removed exactly once when it was created and
never otherwise, and the device is unregistered and freed exactly once
when it is live and never otherwise. -/
theorem exit_release_order (st : ModuleState) :
    List.Sublist ((inzunet_exit st).2.filter isRelease)
      [Event.remove_proc_entry, Event.unregister_netdev, Event.free_netdev] ∧
    (inzunet_exit st).2.count Event.remove_proc_entry
      = (if st.inzunet_proc_entry then 1 else 0) ∧
    (inzunet_exit st).2.count Event.unregister_netdev
      = (if st.inzunet_dev.isSome then 1 else 0) ∧
    (inzunet_exit st).2.count Event.free_netdev
      = (if st.inzunet_dev.isSome then 1 else 0) := by
  obtain ⟨dev, pe⟩ := st
  cases dev with
  | none =>
      cases pe with
      | false =>
          exact (by decide :
            List.Sublist (List.filter isRelease ([] : List Event))
              [Event.remove_proc_entry, Event.unregister_netdev,
               Event.free_netdev] ∧
            List.count Event.remove_proc_entry ([] : List Event) = 0 ∧
            List.count Event.unregister_netdev ([] : List Event) = 0 ∧
            List.count Event.free_netdev ([] : List Event) = 0)
      | true =>
          exact (by decide :
            List.Sublist (List.filter isRelease [Event.remove_proc_entry])
              [Event.remove_proc_entry, Event.unregister_netdev,
               Event.free_netdev] ∧
            List.count Event.remove_proc_entry [Event.remove_proc_entry] = 1 ∧
            List.count Event.unregister_netdev [Event.remove_proc_entry] = 0 ∧
            List.count Event.free_netdev [Event.remove_proc_entry] = 0)
  | some d =>
      cases pe with
      | false =>
          exact (by decide :
            List.Sublist (List.filter isRelease
                [Event.unregister_netdev, Event.free_netdev, Event.log_info])
              [Event.remove_proc_entry, Event.unregister_netdev,
               Event.free_netdev] ∧
            List.count Event.remove_proc_entry
              [Event.unregister_netdev, Event.free_netdev, Event.log_info] = 0 ∧
            List.count Event.unregister_netdev
              [Event.unregister_netdev, Event.free_netdev, Event.log_info] = 1 ∧
            List.count Event.free_netdev
              [Event.unregister_netdev, Event.free_netdev, Event.log_info] = 1)
      | true =>
          exact (by decide :
            List.Sublist (List.filter isRelease
                [Event.remove_proc_entry, Event.unregister_netdev,
                 Event.free_netdev, Event.log_info])
              [Event.remove_proc_entry, Event.unregister_netdev,
               Event.free_netdev] ∧
            List.count Event.remove_proc_entry
              [Event.remove_proc_entry, Event.unregister_netdev,
               Event.free_netdev, Event.log_info] = 1 ∧
            List.count Event.unregister_netdev
              [Event.remove_proc_entry, Event.unregister_netdev,
               Event.free_netdev, Event.log_info] = 1 ∧
            List.count Event.free_netdev
              [Event.remove_proc_entry, Event.unregister_netdev,
               Event.free_netdev, Event.log_info] = 1)

/-- Claim C6: a status read issued while the device reference is absent
succeeds (returns 0) and renders exactly the all-zero text. -/
theorem proc_show_no_device :
    inzunet_proc_show none = ("tx_packets=0\ntx_bytes=0\n", 0) := rfl

/-- Claim C7: when allocation and registration succeed but creation of the
status entry fails, startup still returns 0, the module keeps the
registered device (one live allocation, one registered device, nothing
rolled back), no status entry exists, and a warning is logged. -/
theorem init_proc_failure_nonfatal (env : HostEnv)
    (h1 : env.allocOk = true) (h2 : env.regErr = 0) (h3 : env.procOk = false) :
    (inzunet_init env).1 = 0 ∧
    (inzunet_init env).2.1.inzunet_proc_entry = false ∧
    (inzunet_init env).2.1.inzunet_dev = some initialDevice ∧
    Event.log_warn ∈ (inzunet_init env).2.2 ∧
    liveDevices (inzunet_init env).2.2 = 1 ∧
    registeredDevices (inzunet_init env).2.2 = 1 ∧
    Event.free_netdev ∉ (inzunet_init env).2.2 ∧
    Event.unregister_netdev ∉ (inzunet_init env).2.2 ∧
    Event.remove_proc_entry ∉ (inzunet_init env).2.2 := by
  have key : inzunet_init env
      = (0, { inzunet_dev := some initialDevice, inzunet_proc_entry := false },
         [Event.alloc_ok, Event.register_ok, Event.proc_create_fail,
          Event.log_warn, Event.log_info]) := by
    simp [inzunet_init, h1, h2, h3, initialDevice, alloc_netdev, inzunet_setup]
  rw [key]
  exact ⟨rfl, rfl, rfl, by decide, by decide, by decide, by decide, by decide,
    by decide⟩

/-- Witness for C7: proc_create failing while the rest succeeds. -/
theorem init_proc_failure_nonfatal_witness :
    (inzunet_init { allocOk := true, regErr := 0, procOk := false }).1 = 0 ∧
    (inzunet_init { allocOk := true, regErr := 0, procOk := false }).2.1.inzunet_proc_entry = false ∧
    (inzunet_init { allocOk := true, regErr := 0, procOk := false }).2.1.inzunet_dev = some initialDevice ∧
    Event.log_warn ∈ (inzunet_init { allocOk := true, regErr := 0, procOk := false }).2.2 ∧
    liveDevices (inzunet_init { allocOk := true, regErr := 0, procOk := false }).2.2 = 1 ∧
    registeredDevices (inzunet_init { allocOk := true, regErr := 0, procOk := false }).2.2 = 1 ∧
    Event.free_netdev ∉ (inzunet_init { allocOk := true, regErr := 0, procOk := false }).2.2 ∧
    Event.unregister_netdev ∉ (inzunet_init { allocOk := true, regErr := 0, procOk := false }).2.2 ∧
    Event.remove_proc_entry ∉ (inzunet_init { allocOk := true, regErr := 0, procOk := false }).2.2 :=
  init_proc_failure_nonfatal { allocOk := true, regErr := 0, procOk := false }
    rfl rfl rfl

/-- Claim C8 (amended): the counters start at zero at device creation, and
across every operation of the core (transmit, open, stop, status read)
they are non-decreasing provided the operation causes no 64-bit
wraparound; at a wraparound a counter returns to zero. -/
theorem counters_monotone (dev : NetDevice) (op : Op) (h : NoWrap dev op) :
    (dev.priv.tx_packets ≤ (applyOp op dev).priv.tx_packets ∧
     dev.priv.tx_bytes ≤ (applyOp op dev).priv.tx_bytes) ∧
    initialDevice.priv.tx_packets = 0 ∧ initialDevice.priv.tx_bytes = 0 := by
  refine ⟨?_, rfl, rfl⟩
  cases op with
  | xmitOp skb =>
      have hw : dev.priv.tx_packets + 1 < U64 ∧ dev.priv.tx_bytes + skb.len < U64 := h
      constructor
      · show dev.priv.tx_packets ≤ (dev.priv.tx_packets + 1) % U64
        rw [Nat.mod_eq_of_lt hw.1]
        omega
      · show dev.priv.tx_bytes ≤ (dev.priv.tx_bytes + skb.len) % U64
        rw [Nat.mod_eq_of_lt hw.2]
        omega
  | openOp => exact ⟨le_refl _, le_refl _⟩
  | stopOp => exact ⟨le_refl _, le_refl _⟩
  | readOp => exact ⟨le_refl _, le_refl _⟩

/-- Witness for C8: one 64-byte transmit on the fresh device does not
wrap and does not decrease the counters. -/
theorem counters_monotone_witness :
    (initialDevice.priv.tx_packets
       ≤ (applyOp (Op.xmitOp (Skb.mk 64 0)) initialDevice).priv.tx_packets ∧
     initialDevice.priv.tx_bytes
       ≤ (applyOp (Op.xmitOp (Skb.mk 64 0)) initialDevice).priv.tx_bytes) ∧
    initialDevice.priv.tx_packets = 0 ∧ initialDevice.priv.tx_bytes = 0 :=
  counters_monotone initialDevice (Op.xmitOp (Skb.mk 64 0)) ⟨by decide, by decide⟩

/-- Counterexample for C8 as stated: after 2 ^ 64 - 1 transmits the
packet counter holds 2 ^ 64 - 1, and the next transmit wraps it to
zero, strictly decreasing it. -/
theorem counters_monotone_counterexample :
    (applyOp (Op.xmitOp (Skb.mk 0 0))
        (runXmits (List.replicate (2 ^ 64 - 1) (Skb.mk 0 0)) runningDevice)).priv.tx_packets
      < (runXmits (List.replicate (2 ^ 64 - 1) (Skb.mk 0 0)) runningDevice).priv.tx_packets := by
  have h := runXmits_tx_packets (List.replicate (2 ^ 64 - 1) (Skb.mk 0 0))
    runningDevice (by decide)
  have hp0 : runningDevice.priv.tx_packets = 0 := rfl
  rw [hp0, List.length_replicate] at h
  rw [xmit_packets_step, h]
  decide

/-- Claim C9: the status rendering is a deterministic function of the counter
snapshot: two devices holding the same counters render identically. -/
theorem proc_show_deterministic (d1 d2 : NetDevice) (h : d1.priv = d2.priv) :
    inzunet_proc_show (some d1) = inzunet_proc_show (some d2) := by
  simp [inzunet_proc_show, h]

/-- Witness for C9: two devices differing in name and queue state but
holding the same counters render the same text. -/
theorem proc_show_deterministic_witness :
    inzunet_proc_show (some (NetDevice.mk "inzunet0" false true 1000 (InzunetPriv.mk 5 640)))
  = inzunet_proc_show (some (NetDevice.mk "inzunet1" true true 1000 (InzunetPriv.mk 5 640))) :=
  proc_show_deterministic _ _ rfl

/-- Claim C10: open and stop leave both counters unchanged and both return
success for every device state. -/
theorem open_stop_preserve_counters (dev : NetDevice) :
    (inzunet_open dev).1.priv = dev.priv ∧ (inzunet_open dev).2 = 0 ∧
    (inzunet_stop dev).1.priv = dev.priv ∧ (inzunet_stop dev).2 = 0 :=
  ⟨rfl, rfl, rfl, rfl⟩

end Inzunet
